import Mathlib

/-!
Verification of the access-control logic of the noteshare backend
(`src/controllers/doc.controller.ts`), shallowly embedded in Lean 4.

The controller file is the authority for the request handlers
(`handleGetAllUser`, `handleGetFiles`, `handleNewAccessRole`,
`handleRemoveRole`, `handleDeleteDoc`).  The document store
(`doc.service`), the user directory (`user.service`) and the message
constants (`config`) are external collaborators whose code is not part
of the reviewed sources; their behaviour is modelled from the
specification and marked as such in the doc comments.

User and document identifiers are modelled as natural numbers; the
Mongo role arrays `readonly` / `readWrite` are modelled as lists of
identifiers (an absent array behaves like the empty list, matching the
optional-chaining reads in the controller).
-/

namespace NoteShare

/-- The `Role` enumeration from `doc.controller.ts`. -/
inductive Role where
  | Admin
  | readOnly
  | readWrite
deriving DecidableEq, Repr

/-- The request-level role union `"readOnly" | "readWrite"` used by
`handleNewAccessRole` and (via the spec table) by role removal. -/
inductive SetRole where
  | readOnly
  | readWrite
deriving DecidableEq, Repr

/-- A document record: `_id`, `name`, `desc`, `adminId`, and the two
role arrays `readonly` and `readWrite`. -/
structure Doc where
  id : Nat
  name : String
  desc : String
  adminId : Nat
  readonly : List Nat
  readWrite : List Nat
deriving DecidableEq, Repr

/-- A user record owned by the user directory: `_id` and `email`. -/
structure User where
  id : Nat
  email : String
deriving DecidableEq, Repr

/-- Modelled from the spec: `getDocument(docId) → Document | not-found`
(`getDocById` of the absent `doc.service`): fetch by identifier,
returning a not-found signal when absent. -/
def getDocById (docs : List Doc) (docId : Nat) : Option Doc :=
  docs.find? (fun d => d.id = docId)

/-- Modelled from the spec: `findById(id) → User|not-found` of the
user directory (`findUserById` of the absent `user.service`). -/
def findUserById (users : List User) (uid : Nat) : Option User :=
  users.find? (fun u => u.id = uid)

/-- Modelled from the spec: `findByEmail(email) → User|not-found` of
the user directory (`findUserByEmail` of the absent `user.service`). -/
def findUserByEmail (users : List User) (email : String) : Option User :=
  users.find? (fun u => u.email = email)

/-- Modelled from the spec: message of the error thrown when a
non-owner attempts to change access
(`ERROR_MESSAGES.ACCESS_CHANGE_NOT_ALLOWED`, config not in sources). -/
def ACCESS_CHANGE_NOT_ALLOWED : String := "not allowed to change access"

/-- Modelled from the spec: `ERROR_MESSAGES.EMAIL_NOT_REGISTERED`
(config not in sources). -/
def EMAIL_NOT_REGISTERED : String := "email not registered"

/-- Modelled from the spec: `ERROR_MESSAGES.INVALID_DOC`
(config not in sources); symbolic value, only its identity matters. -/
def INVALID_DOC : String := "invalid document"

/-- Modelled from the spec: `ERROR_MESSAGES.UNAUTHORIZED_USER`
(config not in sources); symbolic value, only its identity matters. -/
def UNAUTHORIZED_USER : String := "unauthorized user"

/-- Result of `handleGetAllUser` (list role assignments): the handler
responds 404 when the document is absent, 403 when the requester is
not the admin, 200 with the resolved assignment list on success, and
500 on an internal store failure (never produced by the pure model). -/
inductive ListUsersResult where
  | fail404 (error : String)
  | fail403 (error : String)
  | fail500 (error : String)
  | ok200 (users : List (Role × String))
deriving DecidableEq, Repr

/-- Result of the mutating handlers (`handleNewAccessRole`,
`handleRemoveRole`, `handleDeleteDoc`): 404, 403, 500 with the error
message, or 200.  The Express response can carry any of these statuses;
the constructors a given handler actually produces is what the
theorems settle. -/
inductive MutResult where
  | fail404 (error : String)
  | fail403 (error : String)
  | fail500 (error : String)
  | ok200
deriving DecidableEq, Repr

/-- Resolution of one (role, userId) entry to (role, email), from the
`data.map` closure of `handleGetAllUser`: a failed lookup (user absent)
is recovered locally as the placeholder email `"User not found"`. -/
def resolveEntry (users : List User) (e : Role × Nat) : Role × String :=
  match findUserById users e.2 with
  | some u => (e.1, u.email)
  | none => (e.1, "User not found")

/-- The merged `data` array of `handleGetAllUser`: start from `[]`,
append the tagged read-only entries when nonempty, then the tagged
read-write entries when nonempty. -/
def mergedEntries (doc : Doc) : List (Role × Nat) :=
  let readOnlyArray := doc.readonly.map (fun roleId => (Role.readOnly, roleId))
  let readWriteArray := doc.readWrite.map (fun roleId => (Role.readWrite, roleId))
  let data : List (Role × Nat) := []
  let data := if readOnlyArray.length > 0 then data ++ readOnlyArray else data
  let data := if readWriteArray.length > 0 then data ++ readWriteArray else data
  data

/-- `handleGetAllUser` (list role assignments): 404 when the document
is absent, 403 when the requester is not the admin, otherwise 200 with
the merged entries each resolved to an email. -/
def handleGetAllUser (docs : List Doc) (users : List User)
    (userId docId : Nat) : ListUsersResult :=
  match getDocById docs docId with
  | none => ListUsersResult.fail404 "No document found"
  | some doc =>
    if doc.adminId = userId then
      ListUsersResult.ok200 ((mergedEntries doc).map (resolveEntry users))
    else
      ListUsersResult.fail403 UNAUTHORIZED_USER

/-- Modelled from the spec: `findAllVisibleTo(userId)` of the absent
`doc.service` (`getAllFiles`): every document where `userId` is the
owner, or present in `readOnlyUsers`, or present in `readWriteUsers`. -/
def getAllFiles (docs : List Doc) (userId : Nat) : List Doc :=
  docs.filter (fun d =>
    d.adminId = userId || d.readonly.contains userId || d.readWrite.contains userId)

/-- One entry of the `handleGetFiles` response:
`{docId, name, desc, role}`. -/
structure FileEntry where
  docId : Nat
  name : String
  desc : String
  role : Role
deriving DecidableEq, Repr

/-- The per-file role computation of `handleGetFiles`: start from
`Role.Admin`, switch to `readOnly` when the read-only array contains
the caller, else to `readWrite` when the read-write array does. -/
def fileRole (userId : Nat) (file : Doc) : Role :=
  if file.readonly.contains userId then Role.readOnly
  else if file.readWrite.contains userId then Role.readWrite
  else Role.Admin

/-- `handleGetFiles` (list visible documents): maps every file visible
to the caller to its `{docId, name, desc, role}` entry. -/
def handleGetFiles (docs : List Doc) (userId : Nat) : List FileEntry :=
  (getAllFiles docs userId).map (fun file =>
    { docId := file.id, name := file.name, desc := file.desc
      role := fileRole userId file })

/-- Modelled from the spec: `addToRoleSet` effect of `grantRole` in the
absent `doc.service`: adds the grantee identifier to the role array
matching the requested role (duplicate policy left open by the spec;
appending records the grant as issued). -/
def grantRoleDoc (doc : Doc) (uid : Nat) (role : SetRole) : Doc :=
  match role with
  | SetRole.readOnly => { doc with readonly := doc.readonly ++ [uid] }
  | SetRole.readWrite => { doc with readWrite := doc.readWrite ++ [uid] }

/-- Modelled from the spec: `removeFromRoleSet` effect of `removeRole`
in the absent `doc.service`: removes the identifier from the specified
role array; removing an absent identifier is a no-op. -/
def removeRoleDoc (doc : Doc) (uid : Nat) (role : SetRole) : Doc :=
  match role with
  | SetRole.readOnly => { doc with readonly := doc.readonly.filter (fun x => x ≠ uid) }
  | SetRole.readWrite => { doc with readWrite := doc.readWrite.filter (fun x => x ≠ uid) }

/-- Modelled from the spec: field-level mutation writes back through
the store by document identity. -/
def updateDoc (docs : List Doc) (d : Doc) : List Doc :=
  docs.map (fun x => if x.id = d.id then d else x)

/-- Modelled from the spec: `remove(id)` of the absent `doc.service`
(`deleteDoc`): permanently removes the document. -/
def deleteDocStore (docs : List Doc) (docId : Nat) : List Doc :=
  docs.filter (fun d => d.id ≠ docId)

/-- `handleNewAccessRole` (grant role): 404 when the document is
absent; a thrown error caught as a 500 response when the caller is not
the admin; 404 when the email is not registered; otherwise grant and
respond 200.  Returns the response together with the resulting store. -/
def handleNewAccessRole (docs : List Doc) (users : List User)
    (userId docId : Nat) (email : String) (role : SetRole) :
    MutResult × List Doc :=
  match getDocById docs docId with
  | none => (MutResult.fail404 INVALID_DOC, docs)
  | some doc =>
    if doc.adminId = userId then
      match findUserByEmail users email with
      | none => (MutResult.fail404 EMAIL_NOT_REGISTERED, docs)
      | some newPerson =>
        (MutResult.ok200, updateDoc docs (grantRoleDoc doc newPerson.id role))
    else
      (MutResult.fail500 ACCESS_CHANGE_NOT_ALLOWED, docs)

/-- `handleRemoveRole` (remove role): same gate sequence as
`handleNewAccessRole`, then removes the grantee from the specified role
array. -/
def handleRemoveRole (docs : List Doc) (users : List User)
    (userId docId : Nat) (email : String) (role : SetRole) :
    MutResult × List Doc :=
  match getDocById docs docId with
  | none => (MutResult.fail404 INVALID_DOC, docs)
  | some doc =>
    if doc.adminId = userId then
      match findUserByEmail users email with
      | none => (MutResult.fail404 EMAIL_NOT_REGISTERED, docs)
      | some newPerson =>
        (MutResult.ok200, updateDoc docs (removeRoleDoc doc newPerson.id role))
    else
      (MutResult.fail500 ACCESS_CHANGE_NOT_ALLOWED, docs)

/-- `handleDeleteDoc` (delete document): 404 when the document is
absent; a thrown error caught as a 500 response when the caller is not
the admin; otherwise delete and respond 200. -/
def handleDeleteDoc (docs : List Doc) (userId docId : Nat) :
    MutResult × List Doc :=
  match getDocById docs docId with
  | none => (MutResult.fail404 INVALID_DOC, docs)
  | some doc =>
    if doc.adminId = userId then
      (MutResult.ok200, deleteDocStore docs docId)
    else
      (MutResult.fail500 ACCESS_CHANGE_NOT_ALLOWED, docs)

/-! ### Helper lemmas -/

theorem mergedEntries_eq (doc : Doc) :
    mergedEntries doc =
      doc.readonly.map (fun roleId => (Role.readOnly, roleId)) ++
      doc.readWrite.map (fun roleId => (Role.readWrite, roleId)) := by
  unfold mergedEntries
  cases hro : doc.readonly <;> cases hrw : doc.readWrite <;> simp

theorem getDocById_mem {docs : List Doc} {docId : Nat} {doc : Doc}
    (h : getDocById docs docId = some doc) : doc ∈ docs :=
  List.mem_of_find?_eq_some h

theorem getDocById_id {docs : List Doc} {docId : Nat} {doc : Doc}
    (h : getDocById docs docId = some doc) : doc.id = docId := by
  have h2 := List.find?_some h
  simpa using h2

theorem updateDoc_self (docs : List Doc) (doc : Doc) (hmem : doc ∈ docs)
    (hnd : (docs.map Doc.id).Nodup) : updateDoc docs doc = docs := by
  unfold updateDoc
  conv_rhs => rw [← List.map_id docs]
  apply List.map_congr_left
  intro x hx
  by_cases hid : x.id = doc.id
  · have hx2 : x = doc := List.inj_on_of_nodup_map hnd hx hmem hid
    simp [hid, hx2]
  · simp [hid]

/-! ### Claims -/

/-- C9: in `handleGetFiles` (list visible documents), the reported role
is `Admin` exactly when the caller appears in neither the read-only nor
the read-write array, and the computation never consults the owner
field: changing `adminId` never changes the computed role. -/
theorem c9_admin_default_ignores_owner (userId : Nat) (file : Doc) :
    (fileRole userId file = Role.Admin ↔
      userId ∉ file.readonly ∧ userId ∉ file.readWrite) ∧
    ∀ a : Nat, fileRole userId { file with adminId := a } = fileRole userId file := by
  refine ⟨?_, fun a => rfl⟩
  unfold fileRole
  by_cases h1 : userId ∈ file.readonly <;> by_cases h2 : userId ∈ file.readWrite <;>
    simp [h1, h2]

/-- Document exercising claim C1: caller 5 owns it and also appears in
its read-only array. -/
def c1doc : Doc :=
  { id := 1, name := "n", desc := "d", adminId := 5, readonly := [5], readWrite := [] }

/-- C1 (counterexample): caller 5 owns `c1doc`, yet the entry returned
by `handleGetFiles` reports role `readOnly`, not `Admin` — ownership
does not take precedence over read-only membership. -/
theorem c1_counterexample :
    c1doc.adminId = 5 ∧
    handleGetFiles [c1doc] 5 =
      [{ docId := 1, name := "n", desc := "d", role := Role.readOnly }] ∧
    Role.readOnly ≠ Role.Admin := by
  refine ⟨rfl, by decide, by decide⟩

/-- C1 (amended): the effective role of every returned entry is
computed with precedence read-only membership first, then read-write
membership, with `Admin` as the default when the caller is in neither
array; ownership is never consulted. -/
theorem c1_roles_set_precedence (docs : List Doc) (userId : Nat)
    (e : FileEntry) (he : e ∈ handleGetFiles docs userId) :
    ∃ d ∈ getAllFiles docs userId,
      e.docId = d.id ∧ e.name = d.name ∧ e.desc = d.desc ∧
      e.role = (if userId ∈ d.readonly then Role.readOnly
        else if userId ∈ d.readWrite then Role.readWrite
        else Role.Admin) := by
  unfold handleGetFiles at he
  rcases List.mem_map.mp he with ⟨d, hd, rfl⟩
  refine ⟨d, hd, rfl, rfl, rfl, ?_⟩
  unfold fileRole
  by_cases h1 : userId ∈ d.readonly <;> by_cases h2 : userId ∈ d.readWrite <;>
    simp [h1, h2]

/-- Witness for C1 (amended) at the concrete store `[c1doc]`. -/
theorem c1_roles_set_precedence_witness :
    ∃ d ∈ getAllFiles [c1doc] 5,
      (1 : Nat) = d.id ∧ "n" = d.name ∧ "d" = d.desc ∧
      Role.readOnly = (if 5 ∈ d.readonly then Role.readOnly
        else if 5 ∈ d.readWrite then Role.readWrite
        else Role.Admin) :=
  c1_roles_set_precedence [c1doc] 5
    { docId := 1, name := "n", desc := "d", role := Role.readOnly } (by decide)

/-- C7: a stored document is visible to a user exactly when the user
owns it or appears in one of its role arrays, and `handleGetFiles`
returns precisely the entries of those visible documents. -/
theorem c7_visibility_iff (docs : List Doc) (u : Nat) (d : Doc) (hd : d ∈ docs) :
    (d ∈ getAllFiles docs u ↔
      d.adminId = u ∨ u ∈ d.readonly ∨ u ∈ d.readWrite) ∧
    handleGetFiles docs u = (getAllFiles docs u).map (fun file =>
      { docId := file.id, name := file.name, desc := file.desc
        role := fileRole u file }) := by
  refine ⟨?_, rfl⟩
  simp [getAllFiles, List.mem_filter, hd]
  tauto

/-- Document exercising claim C7: owned by 1, read-write for 4. -/
def c7doc : Doc :=
  { id := 2, name := "s", desc := "v", adminId := 1, readonly := [], readWrite := [4] }

/-- Witness for C7 at the concrete store `[c7doc]` and caller 9. -/
theorem c7_visibility_iff_witness :
    (c7doc ∈ getAllFiles [c7doc] 9 ↔
      c7doc.adminId = 9 ∨ 9 ∈ c7doc.readonly ∨ 9 ∈ c7doc.readWrite) ∧
    handleGetFiles [c7doc] 9 = (getAllFiles [c7doc] 9).map (fun file =>
      { docId := file.id, name := file.name, desc := file.desc
        role := fileRole 9 file }) :=
  c7_visibility_iff [c7doc] 9 c7doc (by decide)

/-- C4: `handleGetAllUser` responds not-found when the document is
absent, unauthorized when the requester is not the owner, and on an
existing document with the owner as requester succeeds with the merged
resolved role assignments. -/
theorem c4_list_assignments_gates (docs : List Doc) (users : List User)
    (userId docId : Nat) :
    (getDocById docs docId = none →
      handleGetAllUser docs users userId docId =
        ListUsersResult.fail404 "No document found") ∧
    (∀ doc, getDocById docs docId = some doc → doc.adminId ≠ userId →
      handleGetAllUser docs users userId docId =
        ListUsersResult.fail403 UNAUTHORIZED_USER) ∧
    (∀ doc, getDocById docs docId = some doc → doc.adminId = userId →
      handleGetAllUser docs users userId docId =
        ListUsersResult.ok200 ((mergedEntries doc).map (resolveEntry users))) := by
  refine ⟨fun h => by simp [handleGetAllUser, h],
    fun doc h1 h2 => by simp [handleGetAllUser, h1, h2],
    fun doc h1 h2 => by simp [handleGetAllUser, h1, h2]⟩

/-- Document exercising claim C4: owned by 7. -/
def c4doc : Doc :=
  { id := 3, name := "a", desc := "b", adminId := 7, readonly := [8], readWrite := [] }

/-- Witness for C4: all three branches at concrete inputs. -/
theorem c4_list_assignments_gates_witness :
    handleGetAllUser [c4doc] [] 7 9 = ListUsersResult.fail404 "No document found" ∧
    handleGetAllUser [c4doc] [] 6 3 = ListUsersResult.fail403 UNAUTHORIZED_USER ∧
    handleGetAllUser [c4doc] [] 7 3 =
      ListUsersResult.ok200 ((mergedEntries c4doc).map (resolveEntry [])) :=
  ⟨(c4_list_assignments_gates [c4doc] [] 7 9).1 (by decide),
   (c4_list_assignments_gates [c4doc] [] 6 3).2.1 c4doc (by decide) (by decide),
   (c4_list_assignments_gates [c4doc] [] 7 3).2.2 c4doc (by decide) rfl⟩

/-- C3: on an existing document with the owner as requester,
`handleGetAllUser` succeeds with one output entry per merged input
entry (none dropped, the call as a whole succeeds), and every entry
whose user lookup fails is included with the placeholder email
`"User not found"`. -/
theorem c3_resolution_placeholder (docs : List Doc) (users : List User)
    (userId docId : Nat) (doc : Doc)
    (h1 : getDocById docs docId = some doc) (h2 : doc.adminId = userId) :
    ∃ l, handleGetAllUser docs users userId docId = ListUsersResult.ok200 l ∧
      l = (mergedEntries doc).map (resolveEntry users) ∧
      l.length = doc.readonly.length + doc.readWrite.length ∧
      ∀ r uid, findUserById users uid = none →
        resolveEntry users (r, uid) = (r, "User not found") := by
  refine ⟨_, by simp [handleGetAllUser, h1, h2], rfl, ?_, ?_⟩
  · simp [mergedEntries_eq]
  · intro r uid h
    simp [resolveEntry, h]

/-- Document exercising claim C3: one resolvable read-only user (10)
and one read-write user (11) deleted from the directory. -/
def c3doc : Doc :=
  { id := 4, name := "s", desc := "v", adminId := 2, readonly := [10], readWrite := [11] }

/-- Directory for claim C3: only user 10 exists. -/
def c3users : List User := [{ id := 10, email := "user@x.com" }]

/-- Witness for C3 at the concrete store and directory. -/
theorem c3_resolution_placeholder_witness :
    ∃ l, handleGetAllUser [c3doc] c3users 2 4 = ListUsersResult.ok200 l ∧
      l = (mergedEntries c3doc).map (resolveEntry c3users) ∧
      l.length = c3doc.readonly.length + c3doc.readWrite.length ∧
      ∀ r uid, findUserById c3users uid = none →
        resolveEntry c3users (r, uid) = (r, "User not found") :=
  c3_resolution_placeholder [c3doc] c3users 2 4 c3doc (by decide) rfl

/-- C5: on an existing document with the owner as requester, the
output sequence is the read-only entries (tagged `readOnly`) followed
by the read-write entries (tagged `readWrite`), each resolved in the
merged input order. -/
theorem c5_merged_order (docs : List Doc) (users : List User)
    (userId docId : Nat) (doc : Doc)
    (h1 : getDocById docs docId = some doc) (h2 : doc.adminId = userId) :
    handleGetAllUser docs users userId docId =
      ListUsersResult.ok200
        (doc.readonly.map (fun uid => resolveEntry users (Role.readOnly, uid)) ++
         doc.readWrite.map (fun uid => resolveEntry users (Role.readWrite, uid))) := by
  simp only [handleGetAllUser, h1, h2, if_pos rfl, mergedEntries_eq, List.map_append,
    List.map_map]
  rfl

/-- Document exercising claim C5. -/
def c5doc : Doc :=
  { id := 6, name := "s", desc := "v", adminId := 3, readonly := [12, 13], readWrite := [14] }

/-- Witness for C5 at a concrete store and empty directory. -/
theorem c5_merged_order_witness :
    handleGetAllUser [c5doc] [] 3 6 =
      ListUsersResult.ok200
        (c5doc.readonly.map (fun uid => resolveEntry [] (Role.readOnly, uid)) ++
         c5doc.readWrite.map (fun uid => resolveEntry [] (Role.readWrite, uid))) :=
  c5_merged_order [c5doc] [] 3 6 c5doc (by decide) rfl

/-- Document exercising claim C2: owned by 1; user 2 holds read-write. -/
def c2doc : Doc :=
  { id := 5, name := "s", desc := "v", adminId := 1, readonly := [], readWrite := [2] }

/-- Directory for claim C2: the caller, user 2. -/
def c2users : List User := [{ id := 2, email := "b@x.com" }]

/-- C2 (counterexample): caller 2 is not the owner of `c2doc` (while
holding read-write on it), and each of grant, remove and delete fails
with a caught generic error reported as status 500 — not the distinct
403 unauthorized signal the claim states. -/
theorem c2_counterexample :
    c2doc.adminId ≠ 2 ∧ (2 : Nat) ∈ c2doc.readWrite ∧
    (handleNewAccessRole [c2doc] c2users 2 5 "b@x.com" SetRole.readOnly).1 =
      MutResult.fail500 ACCESS_CHANGE_NOT_ALLOWED ∧
    (handleRemoveRole [c2doc] c2users 2 5 "b@x.com" SetRole.readWrite).1 =
      MutResult.fail500 ACCESS_CHANGE_NOT_ALLOWED ∧
    (handleDeleteDoc [c2doc] 2 5).1 = MutResult.fail500 ACCESS_CHANGE_NOT_ALLOWED ∧
    ∀ msg : String,
      MutResult.fail500 ACCESS_CHANGE_NOT_ALLOWED ≠ MutResult.fail403 msg := by
  refine ⟨by decide, by decide, by decide, by decide, by decide,
    fun msg h => by cases h⟩

/-- C2 (amended): for every existing document and non-owner caller,
grant, remove and delete all fail — the thrown
"not allowed to change access" error is caught and reported with
status 500 (not 403) — and the store is unchanged. -/
theorem c2_nonowner_500 (docs : List Doc) (users : List User)
    (userId docId : Nat) (email : String) (role : SetRole) (doc : Doc)
    (h1 : getDocById docs docId = some doc) (h2 : doc.adminId ≠ userId) :
    handleNewAccessRole docs users userId docId email role =
      (MutResult.fail500 ACCESS_CHANGE_NOT_ALLOWED, docs) ∧
    handleRemoveRole docs users userId docId email role =
      (MutResult.fail500 ACCESS_CHANGE_NOT_ALLOWED, docs) ∧
    handleDeleteDoc docs userId docId =
      (MutResult.fail500 ACCESS_CHANGE_NOT_ALLOWED, docs) := by
  refine ⟨?_, ?_, ?_⟩ <;>
    simp [handleNewAccessRole, handleRemoveRole, handleDeleteDoc, h1, h2]

/-- Witness for C2 (amended) at the concrete store `[c2doc]`. -/
theorem c2_nonowner_500_witness :
    handleNewAccessRole [c2doc] c2users 2 5 "b@x.com" SetRole.readOnly =
      (MutResult.fail500 ACCESS_CHANGE_NOT_ALLOWED, [c2doc]) ∧
    handleRemoveRole [c2doc] c2users 2 5 "b@x.com" SetRole.readOnly =
      (MutResult.fail500 ACCESS_CHANGE_NOT_ALLOWED, [c2doc]) ∧
    handleDeleteDoc [c2doc] 2 5 =
      (MutResult.fail500 ACCESS_CHANGE_NOT_ALLOWED, [c2doc]) :=
  c2_nonowner_500 [c2doc] c2users 2 5 "b@x.com" SetRole.readOnly c2doc
    (by decide) (by decide)

/-- C6: for an existing document with the owner as caller, when the
grantee email does not resolve, both grant and remove fail with the
404 "email not registered" response and leave the store (hence every
role array) unchanged. -/
theorem c6_email_unregistered (docs : List Doc) (users : List User)
    (userId docId : Nat) (email : String) (role : SetRole) (doc : Doc)
    (h1 : getDocById docs docId = some doc) (h2 : doc.adminId = userId)
    (h3 : findUserByEmail users email = none) :
    handleNewAccessRole docs users userId docId email role =
      (MutResult.fail404 EMAIL_NOT_REGISTERED, docs) ∧
    handleRemoveRole docs users userId docId email role =
      (MutResult.fail404 EMAIL_NOT_REGISTERED, docs) := by
  constructor <;> simp [handleNewAccessRole, handleRemoveRole, h1, h2, h3]

/-- Document exercising claim C6: owned by 7. -/
def c6doc : Doc :=
  { id := 9, name := "s", desc := "v", adminId := 7, readonly := [8], readWrite := [] }

/-- Witness for C6 with an empty directory. -/
theorem c6_email_unregistered_witness :
    handleNewAccessRole [c6doc] [] 7 9 "ghost@x.com" SetRole.readWrite =
      (MutResult.fail404 EMAIL_NOT_REGISTERED, [c6doc]) ∧
    handleRemoveRole [c6doc] [] 7 9 "ghost@x.com" SetRole.readWrite =
      (MutResult.fail404 EMAIL_NOT_REGISTERED, [c6doc]) :=
  c6_email_unregistered [c6doc] [] 7 9 "ghost@x.com" SetRole.readWrite c6doc
    (by decide) rfl (by decide)

/-- The role array of a document selected by a request-level role. -/
def roleSet (doc : Doc) (role : SetRole) : List Nat :=
  match role with
  | SetRole.readOnly => doc.readonly
  | SetRole.readWrite => doc.readWrite

theorem removeRoleDoc_not_mem (doc : Doc) (uid : Nat) (role : SetRole)
    (h : uid ∉ roleSet doc role) : removeRoleDoc doc uid role = doc := by
  cases role with
  | readOnly =>
    have hf : doc.readonly.filter (fun x => x ≠ uid) = doc.readonly :=
      List.filter_eq_self.mpr (fun a ha => by
        simp only [roleSet] at h
        simp only [decide_eq_true_eq]
        exact fun he => h (he ▸ ha))
    simp only [removeRoleDoc]
    rw [hf]
  | readWrite =>
    have hf : doc.readWrite.filter (fun x => x ≠ uid) = doc.readWrite :=
      List.filter_eq_self.mpr (fun a ha => by
        simp only [roleSet] at h
        simp only [decide_eq_true_eq]
        exact fun he => h (he ▸ ha))
    simp only [removeRoleDoc]
    rw [hf]

/-- C8: removing a role from a user not present in the specified role
array of an existing document, with the owner as caller and a
resolvable grantee email, succeeds (status 200) and leaves the store —
hence both role arrays and every other field of the document —
unchanged (`Nodup` on ids is the store identity invariant). -/
theorem c8_remove_absent_noop (docs : List Doc) (users : List User)
    (userId docId : Nat) (email : String) (role : SetRole)
    (doc : Doc) (person : User)
    (h1 : getDocById docs docId = some doc) (h2 : doc.adminId = userId)
    (h3 : findUserByEmail users email = some person)
    (h4 : person.id ∉ roleSet doc role)
    (h5 : (docs.map Doc.id).Nodup) :
    handleRemoveRole docs users userId docId email role =
      (MutResult.ok200, docs) := by
  have hdoc : removeRoleDoc doc person.id role = doc :=
    removeRoleDoc_not_mem doc person.id role h4
  simp [handleRemoveRole, h1, h2, h3, hdoc,
    updateDoc_self docs doc (getDocById_mem h1) h5]

/-- Document exercising claim C8: owned by 7, read-only for 3 only. -/
def c8doc : Doc :=
  { id := 7, name := "s", desc := "v", adminId := 7, readonly := [3], readWrite := [] }

/-- Directory for claim C8: user 9, not in any role array of `c8doc`. -/
def c8users : List User := [{ id := 9, email := "u@x.com" }]

/-- Witness for C8 at the concrete store and directory. -/
theorem c8_remove_absent_noop_witness :
    handleRemoveRole [c8doc] c8users 7 7 "u@x.com" SetRole.readOnly =
      (MutResult.ok200, [c8doc]) :=
  c8_remove_absent_noop [c8doc] c8users 7 7 "u@x.com" SetRole.readOnly c8doc
    { id := 9, email := "u@x.com" } (by decide) rfl (by decide) (by decide) (by decide)

/-- C10: in all four owner-gated handlers the existence check precedes
the ownership check: on an absent document id, every caller receives
the not-found response, never the unauthorized one, and the store is
unchanged. -/
theorem c10_absent_doc_404 (docs : List Doc) (users : List User)
    (userId docId : Nat) (email : String) (role : SetRole)
    (h : getDocById docs docId = none) :
    handleGetAllUser docs users userId docId =
      ListUsersResult.fail404 "No document found" ∧
    handleNewAccessRole docs users userId docId email role =
      (MutResult.fail404 INVALID_DOC, docs) ∧
    handleRemoveRole docs users userId docId email role =
      (MutResult.fail404 INVALID_DOC, docs) ∧
    handleDeleteDoc docs userId docId = (MutResult.fail404 INVALID_DOC, docs) := by
  refine ⟨?_, ?_, ?_, ?_⟩ <;>
    simp [handleGetAllUser, handleNewAccessRole, handleRemoveRole, handleDeleteDoc, h]

/-- Document exercising claim C10: owned by 1, so caller 2 is a
non-owner; the queried id 99 is absent from the store. -/
def c10doc : Doc :=
  { id := 8, name := "s", desc := "v", adminId := 1, readonly := [2], readWrite := [] }

/-- Witness for C10: a non-owner caller on an absent id still gets the
not-found outcome from all four handlers. -/
theorem c10_absent_doc_404_witness :
    handleGetAllUser [c10doc] [] 2 99 =
      ListUsersResult.fail404 "No document found" ∧
    handleNewAccessRole [c10doc] [] 2 99 "e@x.com" SetRole.readOnly =
      (MutResult.fail404 INVALID_DOC, [c10doc]) ∧
    handleRemoveRole [c10doc] [] 2 99 "e@x.com" SetRole.readOnly =
      (MutResult.fail404 INVALID_DOC, [c10doc]) ∧
    handleDeleteDoc [c10doc] 2 99 = (MutResult.fail404 INVALID_DOC, [c10doc]) :=
  c10_absent_doc_404 [c10doc] [] 2 99 "e@x.com" SetRole.readOnly (by decide)

end NoteShare
